import Mathlib

/-!
Shallow embedding of the task-orchestration core of the `blessings` repository.

The embedding covers:
* the `ReviewResult` verdicts and the synthetic verdicts built by
  `AIService.reviewGeneratedImage` (src/unnamed/part_005),
* `AIService.generateImage` with its Pollinations.ai fallback,
* the bounded generate/review retry loop `AIService.generateWithReview`,
* the KV-backed task store and orchestrator of src/functions/api/[[route]].ts
  (`getTask` / `setTask` / `updateStatus` and the background pipeline),
* the D1-backed orchestrator variant of src/unnamed/part_008,
* the SSE chunking loop of src/functions/api/process-image.ts.

External model calls (Gemini analyze / generate / review, OSS uploads) are
modelled by oracle parameters describing the outcome of each call; everything
the repository's own code does with those outcomes is translated directly.
-/

namespace Blessings

/-- Image bytes, as an abstract byte list (TS `ArrayBuffer`). -/
abbrev Img := List Nat

/-- The seven fixed score dimensions of a review
(interface `ReviewResult.scores` in src/unnamed/part_005). -/
structure ReviewScores where
  face_match : Int
  outfit : Int
  pose : Int
  full_body : Int
  quality : Int
  cultural : Int
  realism : Int
deriving DecidableEq, Repr

/-- The list of the seven score values of a `ReviewScores` record. -/
def scoresList (s : ReviewScores) : List Int :=
  [s.face_match, s.outfit, s.pose, s.full_body, s.quality, s.cultural, s.realism]

/-- Constant scores record with every dimension set to the same value. -/
def constScores (v : Int) : ReviewScores :=
  ⟨v, v, v, v, v, v, v⟩

/-- Verdict for one generated candidate (interface `ReviewResult`,
src/unnamed/part_005). -/
structure ReviewResult where
  approved : Bool
  overall_score : Int
  scores : ReviewScores
  issues : List String
  suggestions : List String
deriving DecidableEq, Repr

/-- The spec's approval invariant for a verdict: `approved == true` iff every
score value meets the threshold 7. -/
def approvedIffScores (r : ReviewResult) : Prop :=
  r.approved = true ↔ ∀ x ∈ scoresList r.scores, 7 ≤ x

instance (r : ReviewResult) : Decidable (approvedIffScores r) := by
  unfold approvedIffScores; infer_instance

/-- The synthetic fully-approved verdict returned by `generateWithReview`
when review is skipped (src/unnamed/part_005, `autoApproveReview`). -/
def autoApproveReview : ReviewResult :=
  { approved := true
    overall_score := 10
    scores := constScores 10
    issues := []
    suggestions := [] }

/-- The synthetic verdict returned when the reviewer's response cannot be
parsed (src/unnamed/part_005, inner catch of `reviewGeneratedImage`). -/
def parseFailReview : ReviewResult :=
  { approved := false
    overall_score := 0
    scores := constScores 0
    issues := ["Failed to parse expert review response"]
    suggestions := ["Retry generation"] }

/-- The synthetic verdict returned when the review call itself fails
(src/unnamed/part_005, outer catch of `reviewGeneratedImage`). -/
def reviewErrorReview : ReviewResult :=
  { approved := false
    overall_score := 0
    scores := constScores 0
    issues := ["Expert review process failed"]
    suggestions := ["Retry generation"] }

/-- Outcome of one call to the reviewer model, from the point of view of
`reviewGeneratedImage`: the model call throws, the returned text fails to
parse as JSON, or it parses to a `ReviewResult`. -/
inductive ReviewOutcome where
  | callError
  | parseError
  | parsed (r : ReviewResult)
deriving DecidableEq, Repr

/-- `AIService.reviewGeneratedImage` (src/unnamed/part_005): a total
function — every failure mode is caught and replaced by a synthetic
not-approved verdict, and a successfully parsed response is returned
unchanged (no validation of its fields). -/
def reviewGeneratedImage : ReviewOutcome → ReviewResult
  | .callError => reviewErrorReview
  | .parseError => parseFailReview
  | .parsed r => r

/-- Outcome of the Gemini image-generation call inside
`AIService.generateImage`: an image part was returned, the response had no
image part, or the call threw. -/
inductive GeminiOutcome where
  | image (img : Img)
  | noImage
  | failure
deriving DecidableEq, Repr

/-- Outcome of the Pollinations.ai fallback fetch inside
`AIService.generateImageFallback`. -/
inductive FallbackOutcome where
  | ok (img : Img)
  | httpError (statusText : String)
deriving DecidableEq, Repr

/-- `AIService.generateImageFallback` (src/unnamed/part_005): fetches the
image from Pollinations.ai, throwing when the HTTP response is not ok. -/
def generateImageFallback : FallbackOutcome → Except String Img
  | .ok img => .ok img
  | .httpError s => .error ("Failed to fetch image from Pollinations.ai: " ++ s)

/-- `AIService.generateImage` (src/unnamed/part_005): returns the Gemini
image when one is present; when Gemini returns no image or the Gemini call
throws, falls back to Pollinations.ai; only a fallback failure escapes. -/
def generateImage : GeminiOutcome → FallbackOutcome → Except String Img
  | .image img, _ => .ok img
  | .noImage, fb => generateImageFallback fb
  | .failure, fb => generateImageFallback fb

/-- Progress stages passed to the `onStatusUpdate` callback of
`generateWithReview`. -/
inductive Stage where
  | generating
  | reviewing
  | regenerating
deriving DecidableEq, Repr

/-- The status string for a stage, as used by the TS callbacks. -/
def stageName : Stage → String
  | .generating => "GENERATING"
  | .reviewing => "REVIEWING"
  | .regenerating => "REGENERATING"

/-- One external capability call made by the loop, recorded for counting. -/
inductive CallEv where
  | gen (attempt : Nat)
  | rev (attempt : Nat)
deriving DecidableEq, Repr

/-- Return value of `generateWithReview`.  In TS the record is declared with
non-nullable `imageBuffer` / `finalReview` but built from nullable locals via
non-null assertions, so both are embedded as `Option`. -/
structure GWRResult where
  imageBuffer : Option Img
  finalReview : Option ReviewResult
  attempts : Int
deriving DecidableEq, Repr

/-- Body of the `for (attempt = 1; attempt <= maxRetries; attempt++)` loop of
`AIService.generateWithReview` (src/unnamed/part_005), with `remaining` the
number of iterations still allowed and `σ` the state threaded through the
`onStatusUpdate` callback `cb`.  Returns the callback state, the trace of
Generate/Review calls made, and the function's result or thrown error. -/
def gwrGo {σ : Type} (g : Nat → Except String Img) (rev : Nat → ReviewResult)
    (skipReview : Bool) (cb : σ → Stage → Nat → Option ReviewResult → σ)
    (maxRetries : Int) (attempt : Nat) (remaining : Nat)
    (lastBuf : Option Img) (lastRev : Option ReviewResult)
    (st : σ) (tr : List CallEv) : σ × List CallEv × Except String GWRResult :=
  match remaining with
  | 0 => (st, tr, .ok ⟨lastBuf, lastRev, maxRetries⟩)
  | r + 1 =>
    let st1 := cb st .generating attempt none
    match g attempt with
    | .error e => (st1, tr ++ [.gen attempt], .error e)
    | .ok buf =>
      let tr1 := tr ++ [.gen attempt]
      if skipReview then
        (st1, tr1, .ok ⟨some buf, some autoApproveReview, (attempt : Int)⟩)
      else
        let st2 := cb st1 .reviewing attempt none
        let rv := rev attempt
        let tr2 := tr1 ++ [.rev attempt]
        if rv.approved then
          (st2, tr2, .ok ⟨some buf, some rv, (attempt : Int)⟩)
        else
          let st3 := cb st2 .regenerating attempt (some rv)
          gwrGo g rev skipReview cb maxRetries (attempt + 1) r (some buf) (some rv) st3 tr2

/-- `AIService.generateWithReview` (src/unnamed/part_005): runs the bounded
generate/review loop starting at attempt 1; with `maxRetries ≤ 0` the loop
body never runs and the nullable locals are returned as-is. -/
def generateWithReview {σ : Type} (g : Nat → Except String Img)
    (rev : Nat → ReviewResult) (maxRetries : Int)
    (cb : σ → Stage → Nat → Option ReviewResult → σ) (skipReview : Bool)
    (st : σ) : σ × List CallEv × Except String GWRResult :=
  gwrGo g rev skipReview cb maxRetries 1 maxRetries.toNat none none st []

/-- The parsed shape of the analysis model's JSON output, restricted to the
fields the orchestrators read (`is_feasible`, `description`, `issues`);
`none` models an absent / undefined field. -/
structure AnalysisJson where
  is_feasible : Option Bool := none
  description : Option String := none
  issues : Option (List String) := none
deriving DecidableEq, Repr

/-- The values the orchestrators serialize into a task's `analysis_result`
column/field: the plain parsed analysis, an error record
`{"error": msg}`, or the final record also carrying `expert_review`
and `generation_attempts`. -/
inductive StoredAnalysis where
  | plain (a : AnalysisJson)
  | errorRec (msg : String)
  | final (a : AnalysisJson) (expert_review : Option ReviewResult)
      (generation_attempts : Int)
deriving DecidableEq, Repr

/-- The task record stored in Cloudflare KV
(interface `Task`, src/functions/api/[[route]].ts). -/
structure Task where
  id : String
  session_id : String
  status : String
  original_image_path : String
  generated_image_path : Option String := none
  analysis_result : Option StoredAnalysis := none
  error_message : Option String := none
  created_at : Int
deriving DecidableEq, Repr

/-- The KV task store, ignoring expiry (a separate expiring model below
captures the TTL behaviour of `setTask`). -/
abbrev Store := String → Option Task

/-- `getTask` (src/functions/api/[[route]].ts). -/
def getTask (st : Store) (taskId : String) : Option Task :=
  st taskId

/-- `setTask` (src/functions/api/[[route]].ts), with the TTL aspect dropped. -/
def setTask (st : Store) (t : Task) : Store :=
  fun k => if k = t.id then some t else st k

/-- The optional fields a caller of `updateStatus` may supply in `extra`;
`none` models an absent property, so the existing value survives the
TS object spread. -/
structure TaskPatch where
  generated_image_path : Option String := none
  analysis_result : Option StoredAnalysis := none
  error_message : Option String := none
deriving DecidableEq, Repr

/-- The TS object spread `{ ...currentTask, status, ...extra }`. -/
def applyPatch (t : Task) (p : TaskPatch) : Task :=
  { t with
    generated_image_path := p.generated_image_path.or t.generated_image_path
    analysis_result := p.analysis_result.or t.analysis_result
    error_message := p.error_message.or t.error_message }

/-- The `updateStatus` helper of the upload handler
(src/functions/api/[[route]].ts): read the record first, silently do
nothing when it is absent. -/
def updateStatus (st : Store) (taskId : String) (status : String)
    (extra : TaskPatch) : Store :=
  match getTask st taskId with
  | none => st
  | some cur => setTask st (applyPatch { cur with status := status } extra)

/-- The final write of the upload handler's catch block
(src/functions/api/[[route]].ts): read the record, and only when present
overwrite status with FAILED and set the error message. -/
def handleFailure (st : Store) (taskId : String) (msg : String) : Store :=
  match getTask st taskId with
  | none => st
  | some t => setTask st { t with status := "FAILED", error_message := some msg }

/-- The expiring KV store: each key maps to a record and its absolute
expiry time in seconds. -/
abbrev ExpStore := String → Option (Task × Int)

/-- `setTask` with its expiry behaviour (src/functions/api/[[route]].ts):
`kv.put(id, task, { expirationTtl: 3600 })` — the TTL counts from the time
of this write. -/
def setTaskTTL (st : ExpStore) (now : Int) (t : Task) : ExpStore :=
  fun k => if k = t.id then some (t, now + 3600) else st k

/-- `getTask` against the expiring store: an expired record reads as absent. -/
def getTaskAt (st : ExpStore) (now : Int) (taskId : String) : Option Task :=
  match st taskId with
  | none => none
  | some (t, expiresAt) => if now < expiresAt then some t else none

/-- The background pipeline of the upload handler
(src/functions/api/[[route]].ts, `c.executionCtx.waitUntil` body after the
task was created).  Oracles: `analysis` is the outcome of `analyzeImage`
followed by the non-throwing JSON-parse step (an exception in
`analyzeImage` surfaces as `.error`); `g` is the outcome of
`generateImage` per attempt; `revOut` the reviewer outcome per attempt;
`ossGenPut` the outcome of uploading the generated image.  Returns the
final store and the trace of Generate/Review calls. -/
def pipeCb (taskId : String) : Store → Stage → Nat → Option ReviewResult → Store :=
  fun s stage a _ =>
    updateStatus s taskId (stageName stage ++ "_ATTEMPT_" ++ toString a) {}

/-- The tail of the KV pipeline after `generateWithReview` came back
(src/functions/api/[[route]].ts): validate the buffer, upload, and write
the COMPLETED record, catching any thrown error into a FAILED write. -/
def finishPipeline (taskId : String) (aj : AnalysisJson)
    (ossGenPut : Except String Unit) (generatedPath : String)
    (out : Store × List CallEv × Except String GWRResult) : Store × List CallEv :=
  match out.2.2 with
  | .error e => (handleFailure out.1 taskId e, out.2.1)
  | .ok r =>
    match r.imageBuffer with
    | none => (handleFailure out.1 taskId "Generated image buffer is null", out.2.1)
    | some buf =>
      if buf = [] then
        (handleFailure out.1 taskId "Generated image buffer is empty (0 bytes)", out.2.1)
      else
        match ossGenPut with
        | .error e => (handleFailure out.1 taskId e, out.2.1)
        | .ok _ =>
          (updateStatus out.1 taskId "COMPLETED"
            { generated_image_path := some generatedPath
              analysis_result := some (.final aj r.finalReview r.attempts) },
           out.2.1)

def runPipeline (st : Store) (taskId : String)
    (analysis : Except String AnalysisJson) (maxRetries : Int)
    (enableReview : Bool) (g : Nat → Except String Img)
    (revOut : Nat → ReviewOutcome) (ossGenPut : Except String Unit)
    (generatedPath : String) : Store × List CallEv :=
  let st1 := updateStatus st taskId "ANALYZING" {}
  match analysis with
  | .error e => (handleFailure st1 taskId e, [])
  | .ok aj =>
    let st2 := updateStatus st1 taskId "GENERATING" {}
    finishPipeline taskId aj ossGenPut generatedPath
      (generateWithReview g (fun a => reviewGeneratedImage (revOut a))
        maxRetries (pipeCb taskId) (!enableReview) st2)

/-- A task row of the D1 `tasks` table (src/unnamed/part_008 and
src/backend/schema.sql), restricted to the columns the orchestrator
touches. -/
structure TaskRow where
  id : String
  session_id : String
  status : String
  original_image_path : String
  generated_image_path : Option String := none
  analysis_result : Option StoredAnalysis := none
deriving DecidableEq, Repr

/-- The D1 database, keyed by task id. -/
abbrev DB := String → Option TaskRow

/-- A D1 `UPDATE tasks SET ... WHERE id = ?`: a no-op when no row matches. -/
def dbUpdate (db : DB) (taskId : String) (f : TaskRow → TaskRow) : DB :=
  match db taskId with
  | none => db
  | some row => fun k => if k = taskId then some (f row) else db k

/-- The catch block of the D1 orchestrator (src/unnamed/part_008): set the
status to FAILED and store the error message in `analysis_result`. -/
def d1Fail (db : DB) (taskId : String) (msg : String) : DB :=
  dbUpdate db taskId fun r =>
    { r with status := "FAILED", analysis_result := some (.errorRec msg) }

/-- The infeasibility reason of the D1 orchestrator (src/unnamed/part_008):
`analysisJson.description || analysisJson.issues?.join(', ') ||
'Image analysis failed'`, with the JS falsiness of the empty string. -/
def failureReason (a : AnalysisJson) : String :=
  let fromIssues :=
    match a.issues with
    | some is =>
      let j := String.intercalate ", " is
      if j = "" then "Image analysis failed" else j
    | none => "Image analysis failed"
  match a.description with
  | some d => if d = "" then fromIssues else d
  | none => fromIssues

/-- The background pipeline of the D1 orchestrator (src/unnamed/part_008,
`waitUntil` body): upload the original, analyze, record the analysis,
fail fast on `is_feasible === false`, otherwise run `generateWithReview`
with `maxRetries = 3` and persist the outcome. -/
def d1Cb (taskId : String) : DB → Stage → Nat → Option ReviewResult → DB :=
  fun d stage a _ =>
    dbUpdate d taskId fun r =>
      { r with status := stageName stage ++ "_ATTEMPT_" ++ toString a }

/-- The generation half of the D1 pipeline (src/unnamed/part_008), entered
only when the analysis did not report infeasibility. -/
def d1Generate (db : DB) (taskId : String) (aj : AnalysisJson)
    (g : Nat → Except String Img) (revOut : Nat → ReviewOutcome)
    (ossGenPut : Except String Unit) (generatedPath : String) :
    DB × List CallEv :=
  let db3 := dbUpdate db taskId fun r => { r with status := "GENERATING" }
  let out := generateWithReview g
    (fun a => reviewGeneratedImage (revOut a)) 3 (d1Cb taskId) false db3
  match out.2.2 with
  | .error e => (d1Fail out.1 taskId e, out.2.1)
  | .ok r =>
    match ossGenPut with
    | .error e => (d1Fail out.1 taskId e, out.2.1)
    | .ok _ =>
      (dbUpdate out.1 taskId fun row =>
        { row with status := "COMPLETED"
                   generated_image_path := some generatedPath
                   analysis_result :=
                     some (.final aj r.finalReview r.attempts) },
       out.2.1)

/-- The feasibility gate of the D1 pipeline (src/unnamed/part_008):
`if (analysisJson.is_feasible === false)` fail the task and return —
no Generate call — otherwise continue with generation. -/
def d1Feasibility (db : DB) (taskId : String) (aj : AnalysisJson)
    (g : Nat → Except String Img) (revOut : Nat → ReviewOutcome)
    (ossGenPut : Except String Unit) (generatedPath : String) :
    DB × List CallEv :=
  if aj.is_feasible = some false then
    (dbUpdate db taskId fun r =>
      { r with status := "FAILED"
               analysis_result := some (.errorRec (failureReason aj)) }, [])
  else
    d1Generate db taskId aj g revOut ossGenPut generatedPath

def runPipelineD1 (db : DB) (taskId : String)
    (ossOrigPut : Except String Unit) (analysis : Except String AnalysisJson)
    (g : Nat → Except String Img) (revOut : Nat → ReviewOutcome)
    (ossGenPut : Except String Unit) (generatedPath : String) :
    DB × List CallEv :=
  match ossOrigPut with
  | .error e => (d1Fail db taskId e, [])
  | .ok _ =>
    let db1 := dbUpdate db taskId fun r => { r with status := "ANALYZING" }
    match analysis with
    | .error e => (d1Fail db1 taskId e, [])
    | .ok aj =>
      let db2 := dbUpdate db1 taskId fun r =>
        { r with analysis_result := some (.plain aj) }
      d1Feasibility db2 taskId aj g revOut ossGenPut generatedPath

/-- The SSE chunking loop of src/functions/api/process-image.ts:
`while (offset < totalLength) { chunk = s.slice(offset, offset + 5000);
emit(chunk); offset += 5000 }`, as recursion on the remaining suffix. -/
def sendChunks {α : Type} : List α → List (List α)
  | [] => []
  | x :: xs => (x :: xs).take 5000 :: sendChunks ((x :: xs).drop 5000)
termination_by l => l.length
decreasing_by
  simp only [List.length_drop]
  exact Nat.sub_lt (by simp) (by decide)

/-! ### Concrete fixtures used by witnesses and counterexamples -/

/-- A concrete rejected verdict (all scores 3). -/
def rejReview : ReviewResult :=
  { approved := false, overall_score := 3, scores := constScores 3
    issues := ["face does not match"], suggestions := ["retry"] }

/-- A concrete approved verdict (all scores 9). -/
def apprReview : ReviewResult :=
  { approved := true, overall_score := 9, scores := constScores 9
    issues := [], suggestions := [] }

/-- A concrete freshly created task record. -/
def task0 : Task :=
  { id := "t", session_id := "s", status := "ANALYZING"
    original_image_path := "sessions/s/original.jpg", created_at := 0 }

/-- A store holding exactly `task0`. -/
def store0 : Store := setTask (fun _ => none) task0

/-- A callback that ignores every progress notification
(`onStatusUpdate` left out). -/
def cbId : Store → Stage → Nat → Option ReviewResult → Store :=
  fun s _ _ _ => s

/-- A parsed reviewer response that violates the approval rule: approved
with every score 0. -/
def c5Bad : ReviewResult :=
  { approved := true, overall_score := 8, scores := constScores 0
    issues := [], suggestions := [] }

/-- An analysis result reporting infeasibility. -/
def infeasibleAj : AnalysisJson :=
  { is_feasible := some false, description := some "no usable subject" }

/-- A concrete D1 task row. -/
def row0 : TaskRow :=
  { id := "t", session_id := "s", status := "PENDING"
    original_image_path := "sessions/s/original.jpg" }

/-- A D1 database holding exactly `row0`. -/
def db0 : DB := fun k => if k = "t" then some row0 else none

/-! ### Helper lemmas -/

/-- The store has a record for `id` whose `id` field is `id` itself;
this is what every `setTask`-based write needs in order to write back
under the same key. -/
def hasTask (st : Store) (id : String) : Prop :=
  ∃ t, st id = some t ∧ t.id = id

lemma applyPatch_id (t : Task) (p : TaskPatch) : (applyPatch t p).id = t.id := rfl

lemma updateStatus_eq (st : Store) (id status : String) (p : TaskPatch)
    (t : Task) (ht : st id = some t) (hid : t.id = id) :
    updateStatus st id status p id =
      some (applyPatch { t with status := status } p) := by
  unfold updateStatus getTask
  rw [ht]
  show setTask st (applyPatch { t with status := status } p) id = _
  simp [setTask, applyPatch, hid]

lemma hasTask_updateStatus (st : Store) (id status : String) (p : TaskPatch)
    (h : hasTask st id) : hasTask (updateStatus st id status p) id := by
  obtain ⟨t, ht, hid⟩ := h
  exact ⟨_, updateStatus_eq st id status p t ht hid, by simp [applyPatch, hid]⟩

lemma handleFailure_spec (st : Store) (id msg : String) (h : hasTask st id) :
    ∃ t2, handleFailure st id msg id = some t2 ∧ t2.status = "FAILED" ∧
      t2.error_message = some msg ∧ t2.id = id := by
  obtain ⟨t, ht, hid⟩ := h
  unfold handleFailure getTask
  rw [ht]
  refine ⟨{ t with status := "FAILED", error_message := some msg }, ?_, rfl, rfl, hid⟩
  simp [setTask, hid]

lemma updateStatus_completed_spec (st : Store) (id status gp : String)
    (ar : StoredAnalysis) (h : hasTask st id) :
    ∃ t2, updateStatus st id status
        { generated_image_path := some gp, analysis_result := some ar } id = some t2 ∧
      t2.status = status ∧ t2.analysis_result = some ar ∧
      t2.generated_image_path = some gp ∧ t2.id = id := by
  obtain ⟨t, ht, hid⟩ := h
  exact ⟨_, updateStatus_eq st id status _ t ht hid, rfl, rfl, rfl, by simp [applyPatch, hid]⟩

lemma gwrGo_err {σ : Type} {g : Nat → Except String Img} {rev : Nat → ReviewResult}
    {skip : Bool} {cb : σ → Stage → Nat → Option ReviewResult → σ} {maxR : Int}
    {attempt r : Nat} {lb : Option Img} {lr : Option ReviewResult} {st : σ}
    {tr : List CallEv} {e : String} (hg : g attempt = .error e) :
    gwrGo g rev skip cb maxR attempt (r + 1) lb lr st tr =
      (cb st .generating attempt none, tr ++ [.gen attempt], .error e) := by
  unfold gwrGo; rw [hg]

lemma gwrGo_skip {σ : Type} {g : Nat → Except String Img} {rev : Nat → ReviewResult}
    {cb : σ → Stage → Nat → Option ReviewResult → σ} {maxR : Int}
    {attempt r : Nat} {lb : Option Img} {lr : Option ReviewResult} {st : σ}
    {tr : List CallEv} {buf : Img} (hg : g attempt = .ok buf) :
    gwrGo g rev true cb maxR attempt (r + 1) lb lr st tr =
      (cb st .generating attempt none, tr ++ [.gen attempt],
        .ok ⟨some buf, some autoApproveReview, (attempt : Int)⟩) := by
  unfold gwrGo; rw [hg]; rfl

lemma gwrGo_approved {σ : Type} {g : Nat → Except String Img} {rev : Nat → ReviewResult}
    {cb : σ → Stage → Nat → Option ReviewResult → σ} {maxR : Int}
    {attempt r : Nat} {lb : Option Img} {lr : Option ReviewResult} {st : σ}
    {tr : List CallEv} {buf : Img} (hg : g attempt = .ok buf)
    (ha : (rev attempt).approved = true) :
    gwrGo g rev false cb maxR attempt (r + 1) lb lr st tr =
      (cb (cb st .generating attempt none) .reviewing attempt none,
        tr ++ [.gen attempt] ++ [.rev attempt],
        .ok ⟨some buf, some (rev attempt), (attempt : Int)⟩) := by
  unfold gwrGo; rw [hg]; simp only [ha]; rfl

lemma gwrGo_rejected {σ : Type} {g : Nat → Except String Img} {rev : Nat → ReviewResult}
    {cb : σ → Stage → Nat → Option ReviewResult → σ} {maxR : Int}
    {attempt r : Nat} {lb : Option Img} {lr : Option ReviewResult} {st : σ}
    {tr : List CallEv} {buf : Img} (hg : g attempt = .ok buf)
    (ha : (rev attempt).approved = false) :
    gwrGo g rev false cb maxR attempt (r + 1) lb lr st tr =
      gwrGo g rev false cb maxR (attempt + 1) r (some buf) (some (rev attempt))
        (cb (cb (cb st .generating attempt none) .reviewing attempt none)
          .regenerating attempt (some (rev attempt)))
        (tr ++ [.gen attempt] ++ [.rev attempt]) := by
  conv_lhs => rw [gwrGo]
  rw [hg]; simp only [ha]; rfl

lemma gwrGo_hasTask (g : Nat → Except String Img) (rev : Nat → ReviewResult)
    (skip : Bool) (cb : Store → Stage → Nat → Option ReviewResult → Store)
    (maxR : Int) (id : String)
    (hcb : ∀ s stage a r, hasTask s id → hasTask (cb s stage a r) id) :
    ∀ (remaining attempt : Nat) (lb : Option Img) (lr : Option ReviewResult)
      (st : Store) (tr : List CallEv), hasTask st id →
      hasTask (gwrGo g rev skip cb maxR attempt remaining lb lr st tr).1 id := by
  intro remaining
  induction remaining with
  | zero => intro attempt lb lr st tr h; exact h
  | succ r ih =>
    intro attempt lb lr st tr h
    cases hg : g attempt with
    | error e =>
      rw [gwrGo_err hg]
      exact hcb _ _ _ _ h
    | ok buf =>
      cases skip with
      | true =>
        rw [gwrGo_skip hg]
        exact hcb _ _ _ _ h
      | false =>
        by_cases ha : (rev attempt).approved = true
        · rw [gwrGo_approved hg ha]
          exact hcb _ _ _ _ (hcb _ _ _ _ h)
        · rw [gwrGo_rejected hg (Bool.eq_false_iff.mpr ha)]
          exact ih _ _ _ _ _ (hcb _ _ _ _ (hcb _ _ _ _ (hcb _ _ _ _ h)))

lemma gwrGo_zero {σ : Type} {g : Nat → Except String Img} {rev : Nat → ReviewResult}
    {skip : Bool} {cb : σ → Stage → Nat → Option ReviewResult → σ} {maxR : Int}
    {attempt : Nat} {lb : Option Img} {lr : Option ReviewResult} {st : σ}
    {tr : List CallEv} :
    gwrGo g rev skip cb maxR attempt 0 lb lr st tr = (st, tr, .ok ⟨lb, lr, maxR⟩) := rfl

lemma gwrGo_exhaust {σ : Type} (g : Nat → Except String Img)
    (rev : Nat → ReviewResult) (cb : σ → Stage → Nat → Option ReviewResult → σ)
    (maxR : Int) (imgs : Nat → Img) :
    ∀ r : Nat, 1 ≤ r →
      ∀ (attempt : Nat) (lb : Option Img) (lr : Option ReviewResult) (st : σ)
        (tr : List CallEv),
        (∀ a, attempt ≤ a → a < attempt + r → g a = .ok (imgs a)) →
        (∀ a, attempt ≤ a → a < attempt + r → (rev a).approved = false) →
        ∃ st2 tr2, gwrGo g rev false cb maxR attempt r lb lr st tr =
          (st2, tr2,
            .ok ⟨some (imgs (attempt + r - 1)), some (rev (attempt + r - 1)), maxR⟩) := by
  intro r
  induction r with
  | zero => intro hr; exact absurd hr (by omega)
  | succ r ih =>
    intro _ attempt lb lr st tr hg hrev
    have hga : g attempt = .ok (imgs attempt) := hg attempt le_rfl (by omega)
    have hra : (rev attempt).approved = false := hrev attempt le_rfl (by omega)
    rcases Nat.eq_zero_or_pos r with h0 | hpos
    · subst h0
      have hstep := @gwrGo_rejected σ g rev cb maxR attempt 0 lb lr st tr
        (imgs attempt) hga hra
      rw [gwrGo_zero] at hstep
      simp only [show attempt + (0 + 1) - 1 = attempt from by omega]
      exact ⟨_, _, hstep⟩
    · obtain ⟨st2, tr2, heq⟩ := ih hpos (attempt + 1) (some (imgs attempt))
        (some (rev attempt))
        (cb (cb (cb st .generating attempt none) .reviewing attempt none)
          .regenerating attempt (some (rev attempt)))
        (tr ++ [.gen attempt] ++ [.rev attempt])
        (fun a h1 h2 => hg a (by omega) (by omega))
        (fun a h1 h2 => hrev a (by omega) (by omega))
      have hidx : attempt + 1 + r - 1 = attempt + (r + 1) - 1 := by omega
      rw [hidx] at heq
      exact ⟨st2, tr2, by rw [gwrGo_rejected hga hra]; exact heq⟩

lemma sendChunks_cons (x : α) (xs : List α) :
    sendChunks (x :: xs) =
      (x :: xs).take 5000 :: sendChunks ((x :: xs).drop 5000) := by
  rw [sendChunks]

lemma sendChunks_flatten (l : List α) : (sendChunks l).flatten = l := by
  induction l using sendChunks.induct with
  | case1 => simp [sendChunks]
  | case2 x xs ih =>
    rw [sendChunks_cons, List.flatten_cons, ih, List.take_append_drop]

lemma sendChunks_length (l : List α) :
    (sendChunks l).length = (l.length + 4999) / 5000 := by
  induction l using sendChunks.induct with
  | case1 => simp [sendChunks]
  | case2 x xs ih =>
    rw [sendChunks_cons]
    simp only [List.length_cons, List.length_drop] at ih ⊢
    rw [ih]
    omega

lemma sendChunks_mem (l : List α) :
    ∀ c ∈ sendChunks l, c.length ≤ 5000 ∧ c ≠ [] := by
  induction l using sendChunks.induct with
  | case1 => simp [sendChunks]
  | case2 x xs ih =>
    rw [sendChunks_cons]
    intro c hc
    rcases List.mem_cons.mp hc with h | h
    · subst h
      refine ⟨List.length_take_le 5000 (x :: xs), ?_⟩
      simp [List.take_eq_nil_iff]
    · exact ih c h

lemma sendChunks_eq_nil_iff (l : List α) : sendChunks l = [] ↔ l = [] := by
  cases l with
  | nil => simp [sendChunks]
  | cons x xs =>
    rw [sendChunks_cons]
    simp

lemma sendChunks_dropLast (l : List α) :
    ∀ c ∈ (sendChunks l).dropLast, c.length = 5000 := by
  induction l using sendChunks.induct with
  | case1 => simp [sendChunks]
  | case2 x xs ih =>
    rw [sendChunks_cons]
    cases hd : sendChunks ((x :: xs).drop 5000) with
    | nil => simp
    | cons c2 cs =>
      have hne : (x :: xs).drop 5000 ≠ [] := by
        intro h0
        rw [h0] at hd
        simp [sendChunks] at hd
      have hlen : 5000 < (x :: xs).length := by
        by_contra hle
        exact hne (List.drop_eq_nil_iff.mpr (by omega))
      intro c hc
      rw [show ((x :: xs).take 5000 :: c2 :: cs).dropLast
            = (x :: xs).take 5000 :: (c2 :: cs).dropLast from rfl] at hc
      rcases List.mem_cons.mp hc with h | h
      · subst h
        rw [List.length_take]
        omega
      · rw [← hd] at h
        exact ih c h

lemma runPipeline_ok (st : Store) (taskId : String) (aj : AnalysisJson)
    (maxRetries : Int) (enableReview : Bool) (g : Nat → Except String Img)
    (revOut : Nat → ReviewOutcome) (ossGenPut : Except String Unit) (gp : String) :
    runPipeline st taskId (.ok aj) maxRetries enableReview g revOut ossGenPut gp =
      finishPipeline taskId aj ossGenPut gp
        (generateWithReview g (fun a => reviewGeneratedImage (revOut a))
          maxRetries (pipeCb taskId) (!enableReview)
          (updateStatus (updateStatus st taskId "ANALYZING" {})
            taskId "GENERATING" {})) := rfl

lemma finishPipeline_error (taskId : String) (aj : AnalysisJson)
    (ossGenPut : Except String Unit) (gp : String)
    (out : Store × List CallEv × Except String GWRResult) (e : String)
    (h : out.2.2 = .error e) :
    finishPipeline taskId aj ossGenPut gp out =
      (handleFailure out.1 taskId e, out.2.1) := by
  unfold finishPipeline; rw [h]

lemma finishPipeline_completed (taskId : String) (aj : AnalysisJson) (gp : String)
    (out : Store × List CallEv × Except String GWRResult) (r : GWRResult)
    (buf : Img) (h : out.2.2 = .ok r) (hb : r.imageBuffer = some buf)
    (hne : buf ≠ []) :
    finishPipeline taskId aj (.ok ()) gp out =
      (updateStatus out.1 taskId "COMPLETED"
        { generated_image_path := some gp
          analysis_result := some (.final aj r.finalReview r.attempts) },
       out.2.1) := by
  unfold finishPipeline
  simp only [h, hb]
  rw [if_neg hne]

lemma pipeCb_hasTask (id : String) :
    ∀ (s : Store) (stage : Stage) (a : Nat) (rv : Option ReviewResult),
      hasTask s id → hasTask (pipeCb id s stage a rv) id :=
  fun s _ _ _ h => hasTask_updateStatus s id _ {} h

lemma dbUpdate_present (db : DB) (taskId : String) (row : TaskRow)
    (f : TaskRow → TaskRow) (h : db taskId = some row) :
    dbUpdate db taskId f taskId = some (f row) := by
  unfold dbUpdate; rw [h]; simp

/-! ### Claim theorems -/

/-- C2 counterexample: `setTask` stores with `expirationTtl: 3600` counted
from the time of the write, not from `createdAt`.  A task created at time 0
is gone at time 3650 — but after an update written at time 100 the record is
still readable at 3650, i.e. the second write extended the expiry window
past `createdAt + 3600`. -/
theorem setTaskTTL_extends_expiry_counterexample :
    getTaskAt (setTaskTTL (fun _ => none) 0 task0) 3650 "t" = none ∧
    getTaskAt (setTaskTTL (setTaskTTL (fun _ => none) 0 task0) 100
        { task0 with status := "GENERATING" }) 3650 "t" =
      some { task0 with status := "GENERATING" } := by
  decide

/-- C2 amended: every store write (create or update) sets the record's
expiry to exactly 3600 seconds from the time of that write, so a later
update resets the window relative to the write time rather than keeping it
fixed relative to `createdAt`. -/
theorem setTaskTTL_window_from_write (st : ExpStore) (now : Int) (t : Task)
    (q : Int) :
    getTaskAt (setTaskTTL st now t) q t.id =
      if q < now + 3600 then some t else none := by
  unfold setTaskTTL getTaskAt
  simp

/-- C5 counterexample: the code never enforces the approval rule — a parsed
reviewer response with `approved == true` and every score 0 is returned
unchanged by `reviewGeneratedImage` and consumed by the loop, which returns
it as the final verdict; this verdict violates
`approved == true ↔ min(scores) ≥ 7`. -/
theorem approval_invariant_counterexample :
    reviewGeneratedImage (.parsed c5Bad) = c5Bad ∧
    (generateWithReview (fun _ => .ok [1])
        (fun _ => reviewGeneratedImage (.parsed c5Bad)) 1 cbId false store0).2.2 =
      .ok ⟨some [1], some c5Bad, 1⟩ ∧
    ¬ approvedIffScores c5Bad :=
  ⟨rfl, rfl, by decide⟩

/-- C5 amended: the approval rule `approved == true ↔ all scores ≥ 7` is
requested of the reviewer model by the prompt but not enforced in code; the
three synthetic verdicts the code itself constructs do satisfy it, while a
successfully parsed reviewer response is passed through unvalidated. -/
theorem approval_invariant_synthetic_only :
    approvedIffScores autoApproveReview ∧ approvedIffScores parseFailReview ∧
    approvedIffScores reviewErrorReview ∧
    ∀ r : ReviewResult, reviewGeneratedImage (.parsed r) = r :=
  ⟨by decide, by decide, by decide, fun _ => rfl⟩

/-- C6: with review skipped (`reviewEnabled == false`) and `maxRetries ≥ 1`,
`generateWithReview` makes exactly one Generate call and no Review call,
returning the candidate with the synthetic fully-approved verdict
(approved, overall 10, all seven scores 10, empty issues and suggestions)
and `attempts = 1`. -/
theorem skipReview_single_generate {σ : Type} (g : Nat → Except String Img)
    (rev : Nat → ReviewResult) (maxRetries : Int)
    (cb : σ → Stage → Nat → Option ReviewResult → σ) (st : σ) (b : Img)
    (hmr : 1 ≤ maxRetries) (hg : g 1 = .ok b) :
    (generateWithReview g rev maxRetries cb true st).2.1 = [.gen 1] ∧
    (generateWithReview g rev maxRetries cb true st).2.2 =
      .ok ⟨some b, some autoApproveReview, 1⟩ ∧
    autoApproveReview.approved = true ∧
    autoApproveReview.overall_score = 10 ∧
    scoresList autoApproveReview.scores = List.replicate 7 10 ∧
    autoApproveReview.issues = [] ∧ autoApproveReview.suggestions = [] := by
  obtain ⟨r, hr⟩ : ∃ r, maxRetries.toNat = r + 1 :=
    ⟨maxRetries.toNat - 1, by omega⟩
  unfold generateWithReview
  rw [hr, gwrGo_skip hg]
  exact ⟨rfl, rfl, rfl, rfl, rfl, rfl, rfl⟩

/-- C6 witness: the theorem at `maxRetries = 1` with a generation returning
the one-byte image `[9]`. -/
theorem skipReview_single_generate_witness :
    (generateWithReview (fun _ => .ok [9]) (fun _ => rejReview) 1 cbId true
        store0).2.1 = [.gen 1] ∧
    (generateWithReview (fun _ => .ok [9]) (fun _ => rejReview) 1 cbId true
        store0).2.2 = .ok ⟨some [9], some autoApproveReview, 1⟩ ∧
    autoApproveReview.approved = true ∧
    autoApproveReview.overall_score = 10 ∧
    scoresList autoApproveReview.scores = List.replicate 7 10 ∧
    autoApproveReview.issues = [] ∧ autoApproveReview.suggestions = [] :=
  skipReview_single_generate _ _ _ _ _ _ (by decide) rfl

/-- C7: `reviewGeneratedImage` never throws — a review-call failure and an
unparseable reviewer response each degrade to a synthetic not-approved
verdict with every score 0 and an issue naming the failure, so the loop can
still decide to retry. -/
theorem reviewGeneratedImage_never_throws :
    reviewGeneratedImage .callError = reviewErrorReview ∧
    reviewGeneratedImage .parseError = parseFailReview ∧
    reviewErrorReview.approved = false ∧ parseFailReview.approved = false ∧
    scoresList reviewErrorReview.scores = List.replicate 7 0 ∧
    scoresList parseFailReview.scores = List.replicate 7 0 ∧
    reviewErrorReview.issues = ["Expert review process failed"] ∧
    parseFailReview.issues = ["Failed to parse expert review response"] := by
  decide

/-- C8: the push-adapter stream splits a payload of length `L` into
`⌈L / 5000⌉` sequential chunks; every chunk except possibly the last has
exactly 5000 characters, every chunk is nonempty and at most 5000
characters, and concatenating the chunks in emission order restores the
original payload. -/
theorem sendChunks_roundtrip (l : List Char) :
    (sendChunks l).flatten = l ∧
    (sendChunks l).length = (l.length + 5000 - 1) / 5000 ∧
    (∀ c ∈ (sendChunks l).dropLast, c.length = 5000) ∧
    (∀ c ∈ sendChunks l, c.length ≤ 5000 ∧ c ≠ []) :=
  ⟨sendChunks_flatten l, by rw [sendChunks_length]; omega, sendChunks_dropLast l,
    sendChunks_mem l⟩

/-- C9: with `maxRetries ≤ 0` the loop body of `generateWithReview` never
runs, no Generate or Review call happens, and the function returns the
initial `null` locals through its non-null-asserted record — `imageBuffer`
and `finalReview` are both absent and `attempts` equals `maxRetries`. -/
theorem generateWithReview_nonpos_maxRetries {σ : Type}
    (g : Nat → Except String Img) (rev : Nat → ReviewResult) (maxRetries : Int)
    (cb : σ → Stage → Nat → Option ReviewResult → σ) (skipReview : Bool)
    (st : σ) (h : maxRetries ≤ 0) :
    generateWithReview g rev maxRetries cb skipReview st =
      (st, [], .ok ⟨none, none, maxRetries⟩) := by
  unfold generateWithReview
  rw [Int.toNat_of_nonpos h, gwrGo_zero]

/-- C9 witness: the theorem at `maxRetries = -2`. -/
theorem generateWithReview_nonpos_maxRetries_witness :
    generateWithReview (fun _ => .ok [1]) (fun _ => rejReview) (-2) cbId false
        store0 = (store0, [], .ok ⟨none, none, -2⟩) :=
  generateWithReview_nonpos_maxRetries _ _ _ _ _ _ (by decide)

/-- C10: both background status writes — `updateStatus` and the FAILED write
of the catch block — first read the task record and silently do nothing
when it is absent (e.g. already expired), so such a write is dropped
without error. -/
theorem absent_record_write_dropped (st : Store) (taskId status msg : String)
    (extra : TaskPatch) (h : getTask st taskId = none) :
    updateStatus st taskId status extra = st ∧
    handleFailure st taskId msg = st := by
  constructor
  · unfold updateStatus; rw [h]
  · unfold handleFailure; rw [h]

/-- C10 witness: the theorem on the empty store. -/
theorem absent_record_write_dropped_witness :
    updateStatus (fun _ => none) "t" "COMPLETED" {} = (fun _ => none) ∧
    handleFailure (fun _ => none) "t" "boom" = (fun _ => none) :=
  absent_record_write_dropped (fun _ => none) "t" "COMPLETED" "boom" {} rfl

lemma runPipelineD1_ok (db : DB) (taskId : String) (aj : AnalysisJson)
    (g : Nat → Except String Img) (revOut : Nat → ReviewOutcome)
    (ossGenPut : Except String Unit) (gp : String) :
    runPipelineD1 db taskId (.ok ()) (.ok aj) g revOut ossGenPut gp =
      d1Feasibility
        (dbUpdate (dbUpdate db taskId fun r => { r with status := "ANALYZING" })
          taskId fun r => { r with analysis_result := some (.plain aj) })
        taskId aj g revOut ossGenPut gp := rfl

lemma d1Feasibility_infeasible (db : DB) (taskId : String) (aj : AnalysisJson)
    (g : Nat → Except String Img) (revOut : Nat → ReviewOutcome)
    (ossGenPut : Except String Unit) (gp : String)
    (hinf : aj.is_feasible = some false) :
    d1Feasibility db taskId aj g revOut ossGenPut gp =
      (dbUpdate db taskId fun r =>
        { r with status := "FAILED"
                 analysis_result := some (.errorRec (failureReason aj)) }, []) := by
  unfold d1Feasibility; rw [if_pos hinf]

/-- C1: with `maxRetries ≥ 1`, every generation succeeding and every review
rejecting, `generateWithReview` never throws — it returns the last generated
candidate as `imageBuffer` and the last (unapproved) review as
`finalReview` with `attempts = maxRetries`; the KV orchestrator then still
writes status COMPLETED (not FAILED), storing that unapproved verdict and
the attempt count `maxRetries`. -/
theorem exhausted_loop_completes (st : Store) (taskId : String) (t : Task)
    (aj : AnalysisJson) (maxRetries : Int) (g : Nat → Except String Img)
    (revOut : Nat → ReviewOutcome) (imgs : Nat → Img) (gp : String)
    (hpres : st taskId = some t) (hid : t.id = taskId) (hmr : 1 ≤ maxRetries)
    (hg : ∀ a, 1 ≤ a → a ≤ maxRetries.toNat → g a = .ok (imgs a))
    (hne : imgs maxRetries.toNat ≠ [])
    (hrev : ∀ a, 1 ≤ a → a ≤ maxRetries.toNat →
      (reviewGeneratedImage (revOut a)).approved = false) :
    (∀ (σ : Type) (cb : σ → Stage → Nat → Option ReviewResult → σ) (s : σ),
      (generateWithReview g (fun a => reviewGeneratedImage (revOut a))
          maxRetries cb false s).2.2 =
        .ok ⟨some (imgs maxRetries.toNat),
          some (reviewGeneratedImage (revOut maxRetries.toNat)), maxRetries⟩) ∧
    ∃ t2, (runPipeline st taskId (.ok aj) maxRetries true g revOut (.ok ())
        gp).1 taskId = some t2 ∧
      t2.status = "COMPLETED" ∧
      t2.analysis_result = some (.final aj
        (some (reviewGeneratedImage (revOut maxRetries.toNat))) maxRetries) ∧
      t2.generated_image_path = some gp ∧
      (reviewGeneratedImage (revOut maxRetries.toNat)).approved = false := by
  obtain ⟨r, hrn⟩ : ∃ r, maxRetries.toNat = r + 1 :=
    ⟨maxRetries.toNat - 1, by omega⟩
  have hloop : ∀ (σ : Type) (cb : σ → Stage → Nat → Option ReviewResult → σ)
      (s : σ), ∃ st2 tr2,
      generateWithReview g (fun a => reviewGeneratedImage (revOut a))
          maxRetries cb false s =
        (st2, tr2, .ok ⟨some (imgs maxRetries.toNat),
          some (reviewGeneratedImage (revOut maxRetries.toNat)), maxRetries⟩) := by
    intro σ cb s
    obtain ⟨st2, tr2, heq⟩ := gwrGo_exhaust g
      (fun a => reviewGeneratedImage (revOut a)) cb maxRetries imgs (r + 1)
      (by omega) 1 none none s []
      (fun a h1 h2 => hg a h1 (by omega))
      (fun a h1 h2 => hrev a h1 (by omega))
    have hidx : 1 + (r + 1) - 1 = r + 1 := by omega
    rw [hidx] at heq
    exact ⟨st2, tr2, by unfold generateWithReview; rw [hrn]; exact heq⟩
  constructor
  · intro σ cb s
    obtain ⟨st2, tr2, heq⟩ := hloop σ cb s
    rw [heq]
  · obtain ⟨stX, trX, heq⟩ := hloop Store (pipeCb taskId)
      (updateStatus (updateStatus st taskId "ANALYZING" {}) taskId
        "GENERATING" {})
    have hN1 : 1 ≤ maxRetries.toNat := by omega
    have hhas : hasTask stX taskId := by
      have h2 : hasTask (updateStatus (updateStatus st taskId "ANALYZING" {})
          taskId "GENERATING" {}) taskId :=
        hasTask_updateStatus _ _ _ _ (hasTask_updateStatus _ _ _ _ ⟨t, hpres, hid⟩)
      have h3 : hasTask (generateWithReview g
          (fun a => reviewGeneratedImage (revOut a)) maxRetries (pipeCb taskId)
          false (updateStatus (updateStatus st taskId "ANALYZING" {}) taskId
            "GENERATING" {})).1 taskId :=
        gwrGo_hasTask g (fun a => reviewGeneratedImage (revOut a)) false
          (pipeCb taskId) maxRetries taskId (pipeCb_hasTask taskId) _ _ _ _ _ _ h2
      rw [heq] at h3
      exact h3
    obtain ⟨t2, hw, hstat, har, hgp2, _⟩ := updateStatus_completed_spec stX
      taskId "COMPLETED" gp
      (.final aj (some (reviewGeneratedImage (revOut maxRetries.toNat)))
        maxRetries) hhas
    refine ⟨t2, ?_, hstat, har, hgp2, hrev _ hN1 le_rfl⟩
    rw [runPipeline_ok]
    simp only [Bool.not_true]
    rw [heq]
    rw [finishPipeline_completed taskId aj gp _
      ⟨some (imgs maxRetries.toNat),
        some (reviewGeneratedImage (revOut maxRetries.toNat)), maxRetries⟩
      (imgs maxRetries.toNat) rfl rfl hne]
    exact hw

/-- C1 witness: `maxRetries = 2`, both reviews rejected, generation always
returning the one-byte image `[1]`. -/
theorem exhausted_loop_completes_witness :
    (∀ (σ : Type) (cb : σ → Stage → Nat → Option ReviewResult → σ) (s : σ),
      (generateWithReview (fun _ => .ok [1])
          (fun a => reviewGeneratedImage ((fun _ => .parsed rejReview) a))
          2 cb false s).2.2 =
        .ok ⟨some ((fun _ => ([1] : Img)) (Int.toNat 2)),
          some (reviewGeneratedImage ((fun _ => .parsed rejReview) (Int.toNat 2))),
          2⟩) ∧
    ∃ t2, (runPipeline store0 "t" (.ok {}) 2 true (fun _ => .ok [1])
        (fun _ => .parsed rejReview) (.ok ()) "gen").1 "t" = some t2 ∧
      t2.status = "COMPLETED" ∧
      t2.analysis_result = some (.final {}
        (some (reviewGeneratedImage ((fun _ => .parsed rejReview) (Int.toNat 2))))
        2) ∧
      t2.generated_image_path = some "gen" ∧
      (reviewGeneratedImage ((fun _ => .parsed rejReview) (Int.toNat 2))).approved
        = false :=
  exhausted_loop_completes store0 "t" task0 {} 2 (fun _ => .ok [1])
    (fun _ => .parsed rejReview) (fun _ => [1]) "gen" rfl rfl (by decide)
    (fun a h1 h2 => rfl) (by decide) (fun a h1 h2 => rfl)

/-- C3 counterexample: when the Gemini generation call fails but the
Pollinations.ai fallback succeeds, `generateImage` returns the fallback
image instead of propagating the failure, and the loop completes
successfully with the substituted candidate — the generation failure is
swallowed, contradicting the claim that a Generate failure always
propagates as a terminal error. -/
theorem generation_failure_swallowed_counterexample :
    generateImage .failure (.ok [7]) = .ok [7] ∧
    (generateWithReview (fun _ => generateImage .failure (.ok [7]))
        (fun _ => reviewGeneratedImage (.parsed apprReview)) 1 cbId false
        store0).2.2 = .ok ⟨some [7], some apprReview, 1⟩ :=
  ⟨rfl, rfl⟩

/-- C3 amended: a Gemini generation failure alone is swallowed by a
Pollinations.ai fallback; only when the fallback also fails does
`generateImage` throw, and that error is not caught by the loop — it
propagates to the orchestrator, which marks the task FAILED with the
captured message. -/
theorem fallback_failure_propagates (st : Store) (taskId : String) (t : Task)
    (aj : AnalysisJson) (maxRetries : Int) (fbMsg : String)
    (revOut : Nat → ReviewOutcome) (ossGenPut : Except String Unit) (gp : String)
    (hpres : st taskId = some t) (hid : t.id = taskId) (hmr : 1 ≤ maxRetries) :
    generateImage .failure (.httpError fbMsg) =
      .error ("Failed to fetch image from Pollinations.ai: " ++ fbMsg) ∧
    ∃ t2, (runPipeline st taskId (.ok aj) maxRetries true
        (fun _ => generateImage .failure (.httpError fbMsg)) revOut ossGenPut
        gp).1 taskId = some t2 ∧
      t2.status = "FAILED" ∧
      t2.error_message =
        some ("Failed to fetch image from Pollinations.ai: " ++ fbMsg) := by
  refine ⟨rfl, ?_⟩
  obtain ⟨r, hrn⟩ : ∃ r, maxRetries.toNat = r + 1 :=
    ⟨maxRetries.toNat - 1, by omega⟩
  have hg1 : (fun _ : Nat => generateImage .failure (.httpError fbMsg)) 1 =
      .error ("Failed to fetch image from Pollinations.ai: " ++ fbMsg) := rfl
  have hloop : generateWithReview
      (fun _ => generateImage .failure (.httpError fbMsg))
      (fun a => reviewGeneratedImage (revOut a)) maxRetries (pipeCb taskId)
      false (updateStatus (updateStatus st taskId "ANALYZING" {}) taskId
        "GENERATING" {}) =
      (pipeCb taskId (updateStatus (updateStatus st taskId "ANALYZING" {})
          taskId "GENERATING" {}) .generating 1 none,
        [.gen 1],
        .error ("Failed to fetch image from Pollinations.ai: " ++ fbMsg)) := by
    unfold generateWithReview
    rw [hrn, gwrGo_err hg1]
    rfl
  have hhas : hasTask (pipeCb taskId
      (updateStatus (updateStatus st taskId "ANALYZING" {}) taskId
        "GENERATING" {}) .generating 1 none) taskId :=
    pipeCb_hasTask taskId _ _ _ _
      (hasTask_updateStatus _ _ _ _ (hasTask_updateStatus _ _ _ _ ⟨t, hpres, hid⟩))
  obtain ⟨t2, hw, hstat, herr, _⟩ := handleFailure_spec _ taskId
    ("Failed to fetch image from Pollinations.ai: " ++ fbMsg) hhas
  refine ⟨t2, ?_, hstat, herr⟩
  rw [runPipeline_ok]
  simp only [Bool.not_true]
  rw [hloop]
  rw [finishPipeline_error taskId aj ossGenPut gp _
    ("Failed to fetch image from Pollinations.ai: " ++ fbMsg) rfl]
  exact hw

/-- C3 amended witness: `maxRetries = 1` against the singleton store. -/
theorem fallback_failure_propagates_witness :
    generateImage .failure (.httpError "403 Forbidden") =
      .error ("Failed to fetch image from Pollinations.ai: " ++ "403 Forbidden") ∧
    ∃ t2, (runPipeline store0 "t" (.ok {}) 1 true
        (fun _ => generateImage .failure (.httpError "403 Forbidden"))
        (fun _ => .parsed rejReview) (.ok ()) "gen").1 "t" = some t2 ∧
      t2.status = "FAILED" ∧
      t2.error_message =
        some ("Failed to fetch image from Pollinations.ai: " ++ "403 Forbidden") :=
  fallback_failure_propagates store0 "t" task0 {} 1 "403 Forbidden"
    (fun _ => .parsed rejReview) (.ok ()) "gen" rfl rfl (by decide)

/-- C4 counterexample: the KV orchestrator of src/functions/api/[[route]].ts
never checks the analysis for infeasibility — with `is_feasible == false` it
still calls Generate (the trace contains a Generate call) and the task ends
COMPLETED, not FAILED. -/
theorem kv_pipeline_ignores_infeasibility :
    ((runPipeline store0 "t" (.ok infeasibleAj) 1 true (fun _ => .ok [1])
        (fun _ => .parsed apprReview) (.ok ()) "gen").1 "t").map
      (fun t => t.status) = some "COMPLETED" ∧
    CallEv.gen 1 ∈ (runPipeline store0 "t" (.ok infeasibleAj) 1 true
        (fun _ => .ok [1]) (fun _ => .parsed apprReview) (.ok ()) "gen").2 := by
  decide

/-- C4 amended: only the D1 orchestrator variant (src/unnamed/part_008)
implements the infeasibility gate: on `is_feasible == false` it transitions
the task to FAILED storing the analysis-provided reason (in the
`analysis_result` error record, computed as description, else joined
issues, else a default) and makes no Generate call; the KV orchestrator
performs no such check. -/
theorem d1_infeasible_fails_without_generate (db : DB) (taskId : String)
    (row : TaskRow) (aj : AnalysisJson) (g : Nat → Except String Img)
    (revOut : Nat → ReviewOutcome) (ossGenPut : Except String Unit) (gp : String)
    (hpres : db taskId = some row) (hinf : aj.is_feasible = some false) :
    (runPipelineD1 db taskId (.ok ()) (.ok aj) g revOut ossGenPut gp).2 = [] ∧
    ∃ row2, (runPipelineD1 db taskId (.ok ()) (.ok aj) g revOut ossGenPut
        gp).1 taskId = some row2 ∧
      row2.status = "FAILED" ∧
      row2.analysis_result = some (.errorRec (failureReason aj)) := by
  rw [runPipelineD1_ok, d1Feasibility_infeasible _ _ _ _ _ _ _ hinf]
  have h1 := dbUpdate_present db taskId row
    (fun r => { r with status := "ANALYZING" }) hpres
  have h2 := dbUpdate_present _ taskId _
    (fun r => { r with analysis_result := some (.plain aj) }) h1
  have h3 := dbUpdate_present _ taskId _
    (fun r => { r with status := "FAILED"
                       analysis_result := some (.errorRec (failureReason aj)) }) h2
  exact ⟨rfl, ⟨_, h3, rfl, rfl⟩⟩

/-- C4 amended witness: the D1 pipeline on a concrete infeasible analysis. -/
theorem d1_infeasible_fails_without_generate_witness :
    (runPipelineD1 db0 "t" (.ok ()) (.ok infeasibleAj) (fun _ => .ok [1])
        (fun _ => .parsed apprReview) (.ok ()) "gen").2 = [] ∧
    ∃ row2, (runPipelineD1 db0 "t" (.ok ()) (.ok infeasibleAj)
        (fun _ => .ok [1]) (fun _ => .parsed apprReview) (.ok ()) "gen").1 "t" =
        some row2 ∧
      row2.status = "FAILED" ∧
      row2.analysis_result = some (.errorRec (failureReason infeasibleAj)) :=
  d1_infeasible_fails_without_generate db0 "t" row0 infeasibleAj
    (fun _ => .ok [1]) (fun _ => .parsed apprReview) (.ok ()) "gen" rfl rfl

end Blessings

